import Mathlib

/-!
Verification of the Perplexity Sonar maubot plugin (perplexity_bot.py).

The embedding models the two components the spec describes:
- the Responder Gate (should_respond, lines 44-83 of the source), and
- the Answer Pipeline (on_message, lines 85-119, together with
  _call_openrouter, lines 121-149).

Python regular-expression matching over the configured bot name is embedded
directly: the name is inserted with re.escape, so it is matched literally,
and the surrounding pattern pieces are fixed character classes that the
definitions below implement over lists of characters.  Arbitrary allow-list
regular expressions are abstracted as an opaque match function handed to
user_allowed, mirroring the fact that re.match is an external library call.
-/

/-- The character class Python's \s matches on ASCII text
    (space, tab, newline, carriage return, vertical tab, form feed). -/
def pyIsSpace (c : Char) : Bool :=
  c = ' ' || c = '\t' || c = '\n' || c = '\r' || c = '\x0b' || c = '\x0c'

/-- The trailing character class of the name-mention search pattern in
    should_respond, line 54: [ :,.!?]. -/
def mentionTail (c : Char) : Bool :=
  c = ' ' || c = ':' || c = ',' || c = '.' || c = '!' || c = '?'

/-- The trailing character class of the substitution pattern in on_message,
    line 100: [\s:,.!?]. -/
def subTail (c : Char) : Bool :=
  pyIsSpace c || c = ':' || c = ',' || c = '.' || c = '!' || c = '?'

/-- Case-insensitive literal match of the escaped bot name at the head of a
    character list; returns the remainder on success. -/
def stripCI : List Char → List Char → Option (List Char)
  | [], s => some s
  | _ :: _, [] => none
  | n :: ns, c :: cs => if n.toLower = c.toLower then stripCI ns cs else none

/-- The part of the mention pattern after the left anchor: the bot name,
    case-insensitively, followed by a boundary character or end-of-string. -/
def mentionCore (name s : List Char) : Bool :=
  match stripCI name s with
  | some [] => true
  | some (c :: _) => mentionTail c
  | none => false

/-- Matches (@)?name([ :,.!?]|$) at the given position, the optional @ tried
    first as the regex engine would. -/
def mentionAt (name s : List Char) : Bool :=
  (match s with
   | '@' :: rest => mentionCore name rest
   | _ => false) || mentionCore name s

/-- Scans for a match of the mention pattern at any position whose left
    context is a whitespace character (the \s alternative of the anchor). -/
def mentionSearchAux (name : List Char) : List Char → Bool
  | [] => false
  | c :: rest => (pyIsSpace c && mentionAt name rest) || mentionSearchAux name rest

/-- re.search of the pattern (^|\s)(@)?<escaped name>([ :,.!?]|$) with
    re.IGNORECASE over the body, as used in should_respond, line 54. -/
def mentionMatch (name body : String) : Bool :=
  mentionAt name.toList body.toList || mentionSearchAux name.toList body.toList

/-- str.startswith over code points. -/
def startsWithL (s pre : String) : Bool :=
  pre.toList.isPrefixOf s.toList

/-- First-match scan over the allow-list patterns (the for-loop of
    user_allowed, lines 39-41). -/
def matchAny (matchFn : String → String → Bool) : List String → String → Bool
  | [], _ => false
  | p :: rest, mxid => if matchFn p mxid then true else matchAny matchFn rest mxid

/-- user_allowed, lines 35-42: empty allow-list means allow everyone,
    otherwise the first pattern that re.match-es the full mxid wins.
    matchFn abstracts re.match applied to a pattern and the mxid. -/
def user_allowed (matchFn : String → String → Bool)
    (allowed_users : List String) (mxid : String) : Bool :=
  if allowed_users.isEmpty then true
  else matchAny matchFn allowed_users mxid

/-- Message kinds the gate distinguishes: m.text against everything else. -/
inductive MsgType where
  | text
  | other
deriving DecidableEq, Repr

/-- The fields of an inbound event the gate and pipeline consult. -/
structure InboundMessage where
  sender : String
  body : String
  msgtype : MsgType
  in_reply_to : Option String
deriving DecidableEq, Repr

/-- The fields of a fetched parent event the reply rule consults:
    its sender and the keys present in its content mapping. -/
structure ParentEvent where
  sender : String
  contentKeys : List String
deriving DecidableEq, Repr

/-- The continuation-marker content key, lines 78 and 112. -/
def markerKey : String := "org.example.perplexity"

/-- should_respond, lines 44-83.  joinedMembers is the result of the
    get_joined_members lookup (none when it raised); parentFetch is the
    result of the get_event call (outer none when it raised, inner none when
    it returned a falsy event). -/
def should_respond (botMxid botName : String)
    (matchFn : String → String → Bool) (allowed_users : List String)
    (msg : InboundMessage) (joinedMembers : Option Nat)
    (parentFetch : Option (Option ParentEvent)) : Bool :=
  if msg.sender == botMxid || startsWithL msg.body "!"
      || msg.msgtype != MsgType.text then
    false
  else if mentionMatch botName msg.body || startsWithL msg.body "!sonar" then
    user_allowed matchFn allowed_users msg.sender
  else if joinedMembers == some 2 then
    user_allowed matchFn allowed_users msg.sender
  else if msg.in_reply_to.isSome then
    match parentFetch with
    | some (some parent) =>
        if parent.sender == botMxid && parent.contentKeys.contains markerKey then
          user_allowed matchFn allowed_users msg.sender
        else false
    | _ => false
  else false

/-- Python str.strip over a character list. -/
def pyStripL (s : List Char) : List Char :=
  ((s.dropWhile pyIsSpace).reverse.dropWhile pyIsSpace).reverse

/-- Python str.strip. -/
def pyStrip (s : String) : String :=
  (pyStripL s.toList).asString

/-- One attempted match of the substitution pattern @?<escaped name>[\s:,.!?]*
    at the head of s (the name part, then the greedy trailing class). -/
def subCore (name s : List Char) : Option (List Char) :=
  match stripCI name s with
  | some rest => some (rest.dropWhile subTail)
  | none => none

/-- The optional leading @ of the substitution pattern, tried greedily first
    with fallback to matching the name at the same position. -/
def subTry (name s : List Char) : Option (List Char) :=
  match s with
  | '@' :: rest =>
      match subCore name rest with
      | some r => some r
      | none => subCore name s
  | _ => subCore name s

/-- Left-to-right non-overlapping replacement by the empty string, as
    re.sub performs it; fuel bounds the scan by the input length. -/
def subAllFuel (name : List Char) : Nat → List Char → List Char
  | 0, s => s
  | _ + 1, [] => []
  | fuel + 1, c :: rest =>
      match subTry name (c :: rest) with
      | some rest2 => subAllFuel name fuel rest2
      | none => c :: subAllFuel name fuel rest

/-- re.sub of @?<escaped name>[\s:,.!?]* by the empty string with
    re.IGNORECASE, as in on_message, line 100. -/
def reSubName (name body : List Char) : List Char :=
  subAllFuel name body.length body

/-- Query derivation of on_message, lines 95-100: command bodies lose the
    token and are trimmed; other bodies go through the substitution and are
    trimmed. -/
def deriveQuery (name body : String) : String :=
  if startsWithL body "!sonar" then
    pyStrip ((body.toList.drop 6).asString)
  else
    pyStrip ((reSubName name.toList body.toList).asString)

/-- Modelled from the spec for comparison with deriveQuery: one attempted
    removal of the name-mention pattern as the spec words it — the bot name
    as a standalone token, optionally @-prefixed, followed by a boundary
    character or end-of-string — together with the trailing boundary run. -/
def specCore (name s : List Char) : Option (List Char) :=
  match stripCI name s with
  | some [] => some []
  | some (c :: rest) =>
      if mentionTail c then some ((c :: rest).dropWhile subTail) else none
  | none => none

/-- Modelled from the spec: the optional @ in front of the standalone-token
    mention occurrence. -/
def specTry (name s : List Char) : Option (List Char) :=
  match s with
  | '@' :: rest =>
      match specCore name rest with
      | some r => some r
      | none => specCore name s
  | _ => specCore name s

/-- Modelled from the spec: remove every occurrence of the standalone-token
    mention pattern; atB records whether the current position sits at the
    start of the body or right after whitespace, so that only standalone
    occurrences are removed. -/
def specSubFuel (name : List Char) : Bool → Nat → List Char → List Char
  | _, 0, s => s
  | _, _ + 1, [] => []
  | atB, fuel + 1, c :: rest =>
      if atB then
        match specTry name (c :: rest) with
        | some rest2 => specSubFuel name true fuel rest2
        | none => c :: specSubFuel name (pyIsSpace c) fuel rest
      else
        c :: specSubFuel name (pyIsSpace c) fuel rest

/-- Modelled from the spec: the query-derivation step as the spec words it,
    with command-stripping unchanged and the name-stripping restricted to
    standalone-token mention occurrences. -/
def specDeriveQuery (name body : String) : String :=
  if startsWithL body "!sonar" then
    pyStrip ((body.toList.drop 6).asString)
  else
    pyStrip ((specSubFuel name.toList true body.toList.length body.toList).asString)

/-- The configuration fields _call_openrouter consults; none stands for an
    absent (or null) configuration entry. -/
structure BotConfig where
  model : Option String
  max_tokens : Option Int
  temperature : Option Rat
deriving DecidableEq, Repr

/-- The JSON request body assembled in _call_openrouter, lines 129-140.
    messages holds (role, content) pairs; an omitted optional field is
    none. -/
structure RequestData where
  model : String
  messages : List (String × String)
  max_tokens : Option Int
  temperature : Option Rat
deriving DecidableEq, Repr

/-- Request assembly of _call_openrouter, lines 129-140: the model defaults
    to perplexity/sonar-pro, max_tokens is added under Python truthiness
    (so a configured 0 is dropped), temperature under an is-not-None test. -/
def buildRequest (cfg : BotConfig) (query : String) : RequestData :=
  { model := cfg.model.getD "perplexity/sonar-pro"
    messages := [("user", query)]
    max_tokens :=
      match cfg.max_tokens with
      | some v => if v != 0 then some v else none
      | none => none
    temperature := cfg.temperature }

/-- The observable outcome of the HTTP POST: status, body text, and the
    choices[0].message.content field of the parsed JSON when present. -/
structure HttpResponse where
  status : Nat
  text : String
  choicesContent : Option String
deriving DecidableEq, Repr

/-- The tail of _call_openrouter, lines 142-149, given the transport's
    response to the assembled request.  A transport exception is the error
    case of the transport's result; a missing choices field raises a lookup
    error.  A non-200 status returns normally with the error text. -/
def call_openrouter (cfg : BotConfig)
    (transport : RequestData → Except String HttpResponse)
    (query : String) : Except String String :=
  match transport (buildRequest cfg query) with
  | .error e => .error e
  | .ok resp =>
      if resp.status != 200 then
        .ok ("Error: API returned status " ++ toString resp.status)
      else
        match resp.choicesContent with
        | some c => .ok c
        | none => .error "KeyError"

/-- The chat-client calls the pipeline performs, in order. -/
inductive Step where
  | markRead
  | setTyping (timeout : Nat)
  | send (body : String) (marker : Bool)
deriving DecidableEq, Repr

/-- The try/except/else structure of on_message, lines 90-119, after the gate
    returned true: the try block marks read, signals typing, derives the
    query and calls the API; a normal return is sent with the continuation
    marker, an exception is caught and sent as plain text; the finally block
    clears the typing indicator on both paths. -/
def on_message_trace (cfg : BotConfig)
    (transport : RequestData → Except String HttpResponse)
    (name body : String) : List Step :=
  (match call_openrouter cfg transport (deriveQuery name body) with
   | .ok response =>
       [Step.markRead, Step.setTyping 30000, Step.send response true]
   | .error e =>
       [Step.markRead, Step.setTyping 30000,
        Step.send ("Something went wrong: " ++ e) false])
  ++ [Step.setTyping 0]

/-- The pattern loop of user_allowed returns true exactly when some listed
    pattern matches the mxid. -/
lemma matchAny_true_iff (matchFn : String → String → Bool)
    (l : List String) (mxid : String) :
    matchAny matchFn l mxid = true ↔ ∃ p ∈ l, matchFn p mxid = true := by
  induction l with
  | nil => simp [matchAny]
  | cons p rest ih =>
      cases hm : matchFn p mxid <;> simp [matchAny, hm, ih]

/-- With rules 1-3 of the gate not firing, the gate's value is decided by
    the reply-chain rule alone. -/
lemma gate_rule4_iff (botMxid botName : String)
    (matchFn : String → String → Bool) (allowed_users : List String)
    (msg : InboundMessage) (joinedMembers : Option Nat)
    (parentFetch : Option (Option ParentEvent))
    (hsender : (msg.sender == botMxid) = false)
    (hbang : startsWithL msg.body "!" = false)
    (htype : msg.msgtype = MsgType.text)
    (hment : mentionMatch botName msg.body = false)
    (hsonar : startsWithL msg.body "!sonar" = false)
    (hdm : (joinedMembers == some 2) = false) :
    should_respond botMxid botName matchFn allowed_users msg joinedMembers
        parentFetch = true ↔
      (msg.in_reply_to.isSome = true ∧
       ∃ p, parentFetch = some (some p) ∧ p.sender = botMxid ∧
            markerKey ∈ p.contentKeys ∧
            user_allowed matchFn allowed_users msg.sender = true) := by
  simp only [should_respond, hsender, hbang, htype, hment, hsonar, hdm,
    Bool.false_or, Bool.or_self, bne_self_eq_false, Bool.false_eq_true,
    if_false]
  cases hrep : msg.in_reply_to.isSome
  · simp [hrep]
  · cases parentFetch with
    | none => simp [hrep]
    | some op =>
        cases op with
        | none => simp [hrep]
        | some p =>
            cases ha : (p.sender == botMxid) <;>
              cases hb : p.contentKeys.contains markerKey <;>
                simp_all [bne_self_eq_false]

/-- The finally block of on_message clears the typing indicator last,
    whatever the API call produced. -/
lemma trace_last_aux (cfg : BotConfig)
    (transport : RequestData → Except String HttpResponse)
    (name body : String) :
    (on_message_trace cfg transport name body).getLast?
      = some (Step.setTyping 0) := by
  unfold on_message_trace
  cases call_openrouter cfg transport (deriveQuery name body) <;> rfl

/-- C1: with the code as written, a plain text message whose body starts
    with the literal command token is rejected by the gate: the first,
    reject rule tests only for a leading exclamation mark, so it fires
    before the rule that recognizes the search command, even though the
    sender would pass the (empty, allow-everyone) AllowList — and the sonar
    command wrapper routes through this same gate. -/
theorem c1_gate_rejects_sonar_body :
    should_respond "@bot:example.org" "fxivity" (fun _ _ => true) []
        ⟨"@alice:example.org", "!sonar capital of France", MsgType.text, none⟩
        (some 5) none = false
    ∧ user_allowed (fun _ _ => true) [] "@alice:example.org" = true := by
  exact ⟨rfl, rfl⟩

/-- C2: user_allowed allows everyone on an empty allow-list; on a non-empty
    allow-list it returns true exactly when some pattern matches the full
    sender identity, and a match by the head pattern decides the result no
    matter what follows it. -/
theorem c2_user_allowed_characterization
    (matchFn : String → String → Bool) (allowed : List String) (mxid : String) :
    user_allowed matchFn [] mxid = true
    ∧ (allowed ≠ [] →
        (user_allowed matchFn allowed mxid = true ↔
          ∃ p ∈ allowed, matchFn p mxid = true))
    ∧ (∀ p rest, matchFn p mxid = true →
        user_allowed matchFn (p :: rest) mxid = true) := by
  refine ⟨rfl, ?_, ?_⟩
  · intro hne
    have he : allowed.isEmpty = false := by
      cases allowed
      · exact absurd rfl hne
      · rfl
    simp [user_allowed, he, matchAny_true_iff]
  · intro p rest hp
    simp [user_allowed, matchAny, hp]

/-- C2 witness at a concrete allow-list and sender. -/
theorem c2_user_allowed_characterization_witness :
    (["@alice:example.org", "@bob:example.org"] ≠ ([] : List String))
    ∧ (user_allowed (fun p m => p == m)
          ["@alice:example.org", "@bob:example.org"] "@alice:example.org" = true ↔
        ∃ p ∈ ["@alice:example.org", "@bob:example.org"],
          (fun p m => p == m) p "@alice:example.org" = true) :=
  ⟨by decide,
   (c2_user_allowed_characterization (fun p m => p == m)
      ["@alice:example.org", "@bob:example.org"] "@alice:example.org").2.1
     (by decide)⟩

/-- C3: a message whose sender is the bot itself is never gated true,
    whatever its body, kind, reply relation, membership context or parent
    fetch result. -/
theorem c3_self_messages_never_gated (botMxid botName : String)
    (matchFn : String → String → Bool) (allowed_users : List String)
    (msg : InboundMessage) (joinedMembers : Option Nat)
    (parentFetch : Option (Option ParentEvent))
    (h : msg.sender = botMxid) :
    should_respond botMxid botName matchFn allowed_users msg joinedMembers
      parentFetch = false := by
  simp [should_respond, h]

/-- C3 witness: the bot answering itself on an otherwise matching body. -/
theorem c3_self_messages_never_gated_witness :
    ("@bot:example.org" : String) = "@bot:example.org"
    ∧ should_respond "@bot:example.org" "fxivity" (fun _ _ => true) []
        ⟨"@bot:example.org", "fxivity hi", MsgType.text, none⟩
        (some 2) none = false :=
  ⟨rfl,
   c3_self_messages_never_gated "@bot:example.org" "fxivity" (fun _ _ => true) []
     ⟨"@bot:example.org", "fxivity hi", MsgType.text, none⟩ (some 2) none rfl⟩

/-- C4: when rules 1-3 of the gate do not fire, the gate returns true
    exactly when the message declares a reply-to relation and the fetched
    parent event exists, was authored by the bot, carries the continuation
    marker, and the sender passes the AllowList; in particular a parent
    without the marker, or a failed fetch, is a non-match. -/
theorem c4_reply_rule_characterization (botMxid botName : String)
    (matchFn : String → String → Bool) (allowed_users : List String)
    (msg : InboundMessage) (joinedMembers : Option Nat)
    (parentFetch : Option (Option ParentEvent))
    (hsender : (msg.sender == botMxid) = false)
    (hbang : startsWithL msg.body "!" = false)
    (htype : msg.msgtype = MsgType.text)
    (hment : mentionMatch botName msg.body = false)
    (hsonar : startsWithL msg.body "!sonar" = false)
    (hdm : (joinedMembers == some 2) = false) :
    should_respond botMxid botName matchFn allowed_users msg joinedMembers
        parentFetch = true ↔
      (msg.in_reply_to.isSome = true ∧
       ∃ p, parentFetch = some (some p) ∧ p.sender = botMxid ∧
            markerKey ∈ p.contentKeys ∧
            user_allowed matchFn allowed_users msg.sender = true) :=
  gate_rule4_iff botMxid botName matchFn allowed_users msg joinedMembers
    parentFetch hsender hbang htype hment hsonar hdm

/-- C4 witness: a reply to a marker-carrying bot message is gated true. -/
theorem c4_reply_rule_characterization_witness :
    should_respond "@bot:example.org" "fxivity" (fun _ _ => true) []
        ⟨"@alice:example.org", "thanks, tell me more", MsgType.text, some "evt1"⟩
        (some 5) (some (some ⟨"@bot:example.org", [markerKey]⟩)) = true :=
  (c4_reply_rule_characterization "@bot:example.org" "fxivity" (fun _ _ => true) []
      ⟨"@alice:example.org", "thanks, tell me more", MsgType.text, some "evt1"⟩
      (some 5) (some (some ⟨"@bot:example.org", [markerKey]⟩))
      (by decide) (by decide) rfl (by decide) (by decide) (by decide)).mpr
    ⟨rfl, ⟨"@bot:example.org", [markerKey]⟩, rfl, rfl, by decide, rfl⟩

/-- C5 counterexample: the substitution pattern of the code removes the bot
    name wherever it occurs, not only as a standalone token; on the body
    made of the name followed by the letters ish, the code-derived query
    drops the embedded name, while the removal the claim words (standalone
    token followed by a boundary character or end-of-string) leaves the
    body unchanged. -/
theorem c5_query_derivation_counterexample :
    deriveQuery "fxivity" "fxivityish hello" = "ish hello"
    ∧ specDeriveQuery "fxivity" "fxivityish hello" = "fxivityish hello"
    ∧ ("ish hello" : String) ≠ "fxivityish hello" := by
  refine ⟨by decide, by decide, by decide⟩

/-- C5 amended: command bodies lose the token and are trimmed; other bodies
    lose every case-insensitive occurrence of the optionally @-prefixed bot
    name together with the following run of whitespace or boundary
    characters, at any position and without requiring token boundaries,
    and are trimmed; both worked examples of the claim still hold. -/
theorem c5_query_derivation_amended (name body : String)
    (h : startsWithL body "!sonar" = true) :
    deriveQuery name body = pyStrip ((body.toList.drop 6).asString)
    ∧ deriveQuery "fxivity" "!sonar capital of France" = "capital of France"
    ∧ deriveQuery "fxivity" "fxivity: capital of France" = "capital of France"
    ∧ deriveQuery "fxivity" "fxivityish hello" = "ish hello" := by
  refine ⟨?_, by decide, by decide, by decide⟩
  simp [deriveQuery, h]

/-- C5 witness at a concrete command body. -/
theorem c5_query_derivation_amended_witness :
    startsWithL "!sonar hi" "!sonar" = true
    ∧ deriveQuery "fxivity" "!sonar hi"
        = pyStrip ((("!sonar hi" : String).toList.drop 6).asString) :=
  ⟨by decide, (c5_query_derivation_amended "fxivity" "!sonar hi" (by decide)).1⟩

/-- C6: a non-200 provider status is returned by call_openrouter as a
    normal value, so the pipeline sends a reply whose body names the status
    code, completes without an escaping exception, and still clears the
    typing indicator last. -/
theorem c6_provider_error_reply (cfg : BotConfig) (name body : String)
    (r : HttpResponse) (h : r.status ≠ 200) :
    Step.send ("Error: API returned status " ++ toString r.status) true
      ∈ on_message_trace cfg (fun _ => .ok r) name body
    ∧ (on_message_trace cfg (fun _ => .ok r) name body).getLast?
        = some (Step.setTyping 0) := by
  have hb : (r.status != 200) = true := by
    simpa [bne_iff_ne] using h
  refine ⟨?_, trace_last_aux cfg (fun _ => .ok r) name body⟩
  simp [on_message_trace, call_openrouter, hb]

/-- C6 witness: status 500 with body text server error. -/
theorem c6_provider_error_reply_witness :
    ((500 : Nat) ≠ 200)
    ∧ (Step.send ("Error: API returned status " ++ toString (500 : Nat)) true
        ∈ on_message_trace ⟨none, none, none⟩
            (fun _ => .ok ⟨500, "server error", none⟩) "fxivity" "fxivity hi"
      ∧ (on_message_trace ⟨none, none, none⟩
            (fun _ => .ok ⟨500, "server error", none⟩) "fxivity" "fxivity hi").getLast?
          = some (Step.setTyping 0)) :=
  ⟨by decide,
   c6_provider_error_reply ⟨none, none, none⟩ "fxivity" "fxivity hi"
     ⟨500, "server error", none⟩ (by decide)⟩

/-- C7: whatever the configuration, transport outcome (success, non-200
    status, malformed payload, or transport exception) and body, the
    pipeline's last chat-client call clears the typing indicator. -/
theorem c7_typing_always_cleared (cfg : BotConfig)
    (transport : RequestData → Except String HttpResponse)
    (name body : String) :
    (on_message_trace cfg transport name body).getLast?
      = some (Step.setTyping 0) :=
  trace_last_aux cfg transport name body

/-- C8 counterexample: a configured max_tokens of 0 is explicitly
    configured yet dropped from the request, because the code guards the
    field with Python truthiness rather than an is-not-None test. -/
theorem c8_max_tokens_zero_dropped :
    (buildRequest ⟨none, some 0, none⟩ "q").max_tokens = none
    ∧ ((⟨none, some 0, none⟩ : BotConfig)).max_tokens.isSome = true :=
  ⟨rfl, rfl⟩

/-- C8 amended: the request always carries the model identifier (the
    configured one or the default) and the prompt as the sole user message;
    max_tokens is present exactly when configured to a nonzero value, and
    temperature is passed through exactly as configured (present iff
    configured, including zero). -/
theorem c8_request_fields_amended (cfg : BotConfig) (query : String) :
    (buildRequest cfg query).model = cfg.model.getD "perplexity/sonar-pro"
    ∧ (buildRequest cfg query).messages = [("user", query)]
    ∧ ((buildRequest cfg query).max_tokens.isSome = true
        ↔ ∃ v, cfg.max_tokens = some v ∧ v ≠ 0)
    ∧ (buildRequest cfg query).temperature = cfg.temperature
    ∧ (∀ v, cfg.max_tokens = some v → v ≠ 0 →
        (buildRequest cfg query).max_tokens = some v) := by
  refine ⟨rfl, rfl, ?_, rfl, ?_⟩
  · cases hmt : cfg.max_tokens with
    | none => simp [buildRequest, hmt]
    | some v =>
        by_cases hv : v = 0
        · subst hv
          simp [buildRequest, hmt]
        · simp [buildRequest, hmt, hv, bne_iff_ne]
  · intro v hv hne
    simp [buildRequest, hv, hne, bne_iff_ne]

/-- C8 witness: a fully configured request keeps its nonzero max_tokens. -/
theorem c8_request_fields_amended_witness :
    (buildRequest ⟨some "m", some 5, some 1⟩ "q").max_tokens = some 5 :=
  (c8_request_fields_amended ⟨some "m", some 5, some 1⟩ "q").2.2.2.2 5 rfl
    (by decide)

/-- C9: with bot name fxivity the mention pattern of the gate matches the
    three direct-address bodies of the claim and does not match the body
    whose first word merely starts with the name. -/
theorem c9_mention_examples :
    mentionMatch "fxivity" "fxivity hello" = true
    ∧ mentionMatch "fxivity" "@fxivity, hi" = true
    ∧ mentionMatch "fxivity" "hi fxivity!" = true
    ∧ mentionMatch "fxivity" "fxivityish hello" = false := by
  refine ⟨by decide, by decide, by decide, by decide⟩

/-- C10: a reply produced by the normal send path — including the non-200
    provider-error text — carries the continuation marker, the reply sent
    from the exception path is plain text without it, and a later reply
    whose fetched parent lacks the marker is not gated as a conversation
    continuation. -/
theorem c10_marker_discipline :
    (∀ (cfg : BotConfig) (name body : String) (r : HttpResponse),
        r.status ≠ 200 →
        Step.send ("Error: API returned status " ++ toString r.status) true
          ∈ on_message_trace cfg (fun _ => .ok r) name body)
    ∧ (∀ (cfg : BotConfig) (name body e : String),
        Step.send ("Something went wrong: " ++ e) false
          ∈ on_message_trace cfg (fun _ => .error e) name body)
    ∧ (∀ (botMxid botName : String) (matchFn : String → String → Bool)
        (allowed_users : List String) (msg : InboundMessage)
        (joinedMembers : Option Nat)
        (parentFetch : Option (Option ParentEvent)) (p : ParentEvent),
        (msg.sender == botMxid) = false →
        startsWithL msg.body "!" = false →
        msg.msgtype = MsgType.text →
        mentionMatch botName msg.body = false →
        startsWithL msg.body "!sonar" = false →
        (joinedMembers == some 2) = false →
        parentFetch = some (some p) →
        markerKey ∉ p.contentKeys →
        should_respond botMxid botName matchFn allowed_users msg
          joinedMembers parentFetch = false) := by
  refine ⟨?_, ?_, ?_⟩
  · intro cfg name body r h
    have hb : (r.status != 200) = true := by
      simpa [bne_iff_ne] using h
    simp [on_message_trace, call_openrouter, hb]
  · intro cfg name body e
    simp [on_message_trace, call_openrouter]
  · intro botMxid botName matchFn allowed_users msg joinedMembers parentFetch p
      hsender hbang htype hment hsonar hdm hpf hmark
    have hiff := gate_rule4_iff botMxid botName matchFn allowed_users msg
      joinedMembers parentFetch hsender hbang htype hment hsonar hdm
    cases hsr : should_respond botMxid botName matchFn allowed_users msg
        joinedMembers parentFetch with
    | false => rfl
    | true =>
        exfalso
        obtain ⟨-, q, hq, -, hqmark, -⟩ := hiff.mp hsr
        rw [hpf] at hq
        injection hq with hq
        injection hq with hq
        subst hq
        exact hmark hqmark

/-- C10 witness: the three branches at concrete inputs. -/
theorem c10_marker_discipline_witness :
    (Step.send ("Error: API returned status " ++ toString (500 : Nat)) true
       ∈ on_message_trace ⟨none, none, none⟩
           (fun _ => .ok ⟨500, "server error", none⟩) "fxivity" "hi there")
    ∧ (Step.send ("Something went wrong: " ++ "Connection reset") false
       ∈ on_message_trace ⟨none, none, none⟩
           (fun _ => .error "Connection reset") "fxivity" "hi there")
    ∧ should_respond "@bot:example.org" "fxivity" (fun _ _ => true) []
        ⟨"@alice:example.org", "hello again", MsgType.text, some "evt2"⟩
        (some 5) (some (some ⟨"@bot:example.org", ["m.mentions"]⟩)) = false :=
  ⟨c10_marker_discipline.1 ⟨none, none, none⟩ "fxivity" "hi there"
     ⟨500, "server error", none⟩ (by decide),
   c10_marker_discipline.2.1 ⟨none, none, none⟩ "fxivity" "hi there"
     "Connection reset",
   c10_marker_discipline.2.2 "@bot:example.org" "fxivity" (fun _ _ => true) []
     ⟨"@alice:example.org", "hello again", MsgType.text, some "evt2"⟩
     (some 5) (some (some ⟨"@bot:example.org", ["m.mentions"]⟩))
     ⟨"@bot:example.org", ["m.mentions"]⟩
     (by decide) (by decide) rfl (by decide) (by decide) (by decide) rfl
     (by decide)⟩
